import Mathlib

/-!
Verification of the SonicScribe streaming speech-to-text backend.

The Python sources under `backend/` are shallowly embedded below:
pure functions become Lean functions, stateful methods become explicit
state-passing functions, wall-clock reads (`time.time()`) become explicit
`now : ℚ` parameters, Python floats become `ℚ`, Python ints become `Int`
(or `ℕ` where the source value is manifestly a count), byte strings become
`List Byte` with `Byte := ℕ`, and the opaque VAD / ASR engines become
oracle function parameters (a `VadEngine` may fail, modelling a raised
exception).  Python `dict[int, AudioChunk]` (insertion ordered, unique
keys) is modelled as an insertion-ordered `List AudioChunk`.
-/

namespace SonicScribe

/-- Bytes of PCM audio are modelled as natural numbers. -/
abbrev Byte := ℕ

/-! ## AppConfig (config.py) — fixed constants -/

def AUDIO_SAMPLE_RATE : ℕ := 16000
def AUDIO_CHUNK_DURATION_MS : ℕ := 64
/-- AUDIO_CHUNK_SIZE = int(16000 * 2 * 64 / 1000) = 2048 bytes. -/
def AUDIO_CHUNK_SIZE : ℕ := AUDIO_SAMPLE_RATE * 2 * AUDIO_CHUNK_DURATION_MS / 1000
def MAX_AUDIO_BUFFER_SECONDS : ℚ := 30
/-- VAD_SMOOTHING_WINDOW as it stands at import time (config.py line 28).
The runtime-mutable copy lives in `AppConfigMutable`; this constant is the
value captured by the default argument of `get_chunks_for_vad`, which
Python evaluates once at class-definition time. -/
def VAD_SMOOTHING_WINDOW : ℕ := 2
def VAD_PROCESS_WINDOW : ℕ := 10
def VAD_INITIAL_THRESHOLD : ℚ := 3/10
def VAD_THRESHOLD_MIN : ℚ := 3/10
def VAD_THRESHOLD_MAX : ℚ := 9/10
def VAD_THRESHOLD_STEP : ℚ := 1/10
def TEMPORARY_TRANSCRIPTION_INTERVAL : ℕ := 20
def MAX_SEGMENT_DURATION : ℚ := 30
def MAX_SPEECH_SEGMENTS : ℕ := 3

/-- Runtime-mutable part of AppConfig: `POST /vad/config` (main.py 569-586)
overwrites these two class attributes for the whole process. -/
structure AppConfigMutable where
  VAD_SPEECH_THRESHOLD : ℚ
  VAD_SMOOTHING_WINDOW : Int
deriving DecidableEq

def AppConfigMutable.startup : AppConfigMutable := ⟨6/10, 2⟩

/-- update_vad_config (main.py 569-586): sets the two global attributes. -/
def update_vad_config (g : AppConfigMutable) (speech_threshold : ℚ)
    (smoothing_window : Int) : AppConfigMutable :=
  let g1 := { g with VAD_SPEECH_THRESHOLD := speech_threshold }
  { g1 with VAD_SMOOTHING_WINDOW := smoothing_window }

/-! ## data_basic.py -/

/-- AudioChunk (data_basic.py 11-31). -/
structure AudioChunk where
  chunk_id : Int
  timestamp : ℚ
  audio_data : List Byte
  vad_confidence : ℚ
  is_processed : Bool
deriving DecidableEq

/-- AudioChunk.__init__ : vad_confidence = 0.0, is_processed = False. -/
def AudioChunk.new (chunk_id : Int) (timestamp : ℚ) (audio_data : List Byte) :
    AudioChunk :=
  ⟨chunk_id, timestamp, audio_data, 0, false⟩

/-- SpeechSegment (data_basic.py 33-75).  The `uid` field models Python
object identity (`id(self)`, used as the emitted `segment_id`); the
`audio_data` bytearray and `temporary_transcripts` list are only ever
touched by `add_chunk`, which no code path calls, so they are omitted. -/
structure SpeechSegment where
  start_chunk_id : Int
  start_time : ℚ
  end_chunk_id : Int
  end_time : ℚ
  transcript : String
  is_final : Bool
  uid : ℕ
deriving DecidableEq

/-- SpeechSegment.__init__. -/
def SpeechSegment.new (start_chunk_id : Int) (start_time : ℚ) (uid : ℕ) :
    SpeechSegment :=
  ⟨start_chunk_id, start_time, -1, -1, "", false, uid⟩

/-- SpeechSegment.duration, with the `time.time()` read made explicit. -/
def SpeechSegment.durationAt (s : SpeechSegment) (now : ℚ) : ℚ :=
  if s.end_time ≤ 0 then now - s.start_time else s.end_time - s.start_time

/-- SpeechSegment.finalize (data_basic.py 58-62). -/
def SpeechSegment.finalize (s : SpeechSegment) (end_chunk_id : Int)
    (end_time : ℚ) : SpeechSegment :=
  { s with end_chunk_id := end_chunk_id, end_time := end_time, is_final := true }

/-! ## audio_manager.py -/

/-- AudioBufferManager state (audio_manager.py 13-19).  `buffer_start_time`
is never read and is omitted. -/
structure AudioBufferManager where
  chunk_buffer : List AudioChunk
  speech_segments : List SpeechSegment
  current_segment : Option SpeechSegment
  next_chunk_id : Int
  last_cleanup_time : ℚ
deriving DecidableEq

def AudioBufferManager.new (t0 : ℚ) : AudioBufferManager := ⟨[], [], none, 0, t0⟩

/-- _cleanup_old_chunks (audio_manager.py 35-58): at most once per second,
drop every chunk whose timestamp is older than `now - 30` and every
finalized segment whose start_time is older than that; the open
`current_segment` is not touched. -/
def AudioBufferManager.cleanup_old_chunks (m : AudioBufferManager) (now : ℚ) :
    AudioBufferManager :=
  if now - m.last_cleanup_time < 1 then m
  else
    let min_time := now - MAX_AUDIO_BUFFER_SECONDS
    { m with
      last_cleanup_time := now
      chunk_buffer := m.chunk_buffer.filter (fun c => !(decide (c.timestamp < min_time)))
      speech_segments := m.speech_segments.filter (fun s => decide (min_time ≤ s.start_time)) }

/-- add_audio_chunk (audio_manager.py 21-33). -/
def AudioBufferManager.add_audio_chunk (m : AudioBufferManager) (now : ℚ)
    (audio_data : List Byte) : AudioBufferManager × AudioChunk :=
  let chunk := AudioChunk.new m.next_chunk_id now audio_data
  let m1 := { m with
    chunk_buffer := m.chunk_buffer ++ [chunk]
    next_chunk_id := m.next_chunk_id + 1 }
  (m1.cleanup_old_chunks now, chunk)

/-- get_chunks_for_vad (audio_manager.py 60-68): filter out processed
chunks, sort by chunk_id descending, keep the first `window_size`, return
them sorted ascending.  Python's stable `sorted` is modelled by
`insertionSort`. -/
def AudioBufferManager.get_chunks_for_vad (m : AudioBufferManager)
    (window_size : ℕ) : List AudioChunk :=
  let unprocessed := m.chunk_buffer.filter (fun c => !c.is_processed)
  let recent := (List.insertionSort (fun a b => b.chunk_id ≤ a.chunk_id) unprocessed).take window_size
  List.insertionSort (fun a b => a.chunk_id ≤ b.chunk_id) recent

/-- Python `range(lo, hi + 1)` over possibly-negative bounds. -/
def intRange (lo hi : Int) : List Int :=
  (List.range (hi + 1 - lo).toNat).map (fun k => lo + (k : Int))

/-- get_chunks_by_range (audio_manager.py 70-73): dict lookups in id order,
skipping absent ids. -/
def AudioBufferManager.get_chunks_by_range (m : AudioBufferManager)
    (start_chunk_id end_chunk_id : Int) : List AudioChunk :=
  (intRange start_chunk_id end_chunk_id).filterMap
    (fun cid => m.chunk_buffer.find? (fun c => c.chunk_id == cid))

/-- create_speech_segment (audio_manager.py 75-88): a still-open segment is
force-finalized at `(start_chunk_id - 1, start_time)`, appended, the list
capped by popping the oldest, and only then is the new segment opened.
The fresh `uid` models the identity of the newly allocated object. -/
def AudioBufferManager.create_speech_segment (m : AudioBufferManager)
    (start_chunk_id : Int) (start_time : ℚ) (uid : ℕ) :
    AudioBufferManager × SpeechSegment :=
  let m1 :=
    match m.current_segment with
    | some cur =>
      let fin := cur.finalize (start_chunk_id - 1) start_time
      let segs := m.speech_segments ++ [fin]
      let segs := if MAX_SPEECH_SEGMENTS < segs.length then segs.drop 1 else segs
      { m with speech_segments := segs }
    | none => m
  let seg := SpeechSegment.new start_chunk_id start_time uid
  ({ m1 with current_segment := some seg }, seg)

/-- finalize_current_segment (audio_manager.py 90-104). -/
def AudioBufferManager.finalize_current_segment (m : AudioBufferManager)
    (end_chunk_id : Int) (end_time : ℚ) :
    AudioBufferManager × Option SpeechSegment :=
  match m.current_segment with
  | some cur =>
    let fin := cur.finalize end_chunk_id end_time
    let segs := m.speech_segments ++ [fin]
    let segs := if MAX_SPEECH_SEGMENTS < segs.length then segs.drop 1 else segs
    ({ m with speech_segments := segs, current_segment := none }, some fin)
  | none => (m, none)

/-- get_temporary_transcription_chunks (audio_manager.py 106-114). -/
def AudioBufferManager.get_temporary_transcription_chunks
    (m : AudioBufferManager) : List AudioChunk :=
  match m.current_segment with
  | none => []
  | some seg =>
    let start_chunk_id :=
      max seg.start_chunk_id (m.next_chunk_id - (TEMPORARY_TRANSCRIPTION_INTERVAL : Int))
    m.get_chunks_by_range start_chunk_id (m.next_chunk_id - 1)

/-- get_committed_audio_data (audio_manager.py 116-123): concatenate the
PCM of all present chunks from the segment start to the newest id. -/
def AudioBufferManager.get_committed_audio_data (m : AudioBufferManager)
    (seg : SpeechSegment) : List Byte :=
  (m.get_chunks_by_range seg.start_chunk_id (m.next_chunk_id - 1)).foldl
    (fun acc c => acc ++ c.audio_data) []

/-! ## vad_processor_manager.py -/

/-- The opaque VAD engine (`vad_processor.is_voice_active(audio, threshold)`):
given the combined PCM window and the current threshold it returns a
speech verdict, or fails (modelling a raised exception). -/
abbrev VadEngine := List Byte → ℚ → Except Unit Bool

/-- VADProcessorManager mutable state (vad_processor_manager.py 22-40).
`last_vad_time` is write-only and omitted; the per-instance threshold
fields are copies of the fixed config constants and are used via the
`VAD_THRESHOLD_*` definitions. -/
structure VadState where
  vad_is_speaking : Bool
  speech_start_chunk_id : Int
  speech_start_time : ℚ
  silence_count : Int
  speech_count : Int
  last_processed_chunk_id : Int
  current_vad_threshold : ℚ
  chunk_accumulator : List AudioChunk
deriving DecidableEq

def VadState.new : VadState :=
  ⟨false, -1, -1, 0, 0, -1, VAD_INITIAL_THRESHOLD, []⟩

/-- Boundary protection (vad_processor_manager.py 170 and 178):
`max(min, min(max, x))`. -/
def clampThreshold (x : ℚ) : ℚ :=
  max VAD_THRESHOLD_MIN (min VAD_THRESHOLD_MAX x)

/-- Lines 64-66: append each recent chunk whose id is not already among the
ids of the (growing) accumulator. -/
def accumulateChunks (acc recent : List AudioChunk) : List AudioChunk :=
  recent.foldl
    (fun a c => if (a.map (fun x => x.chunk_id)).contains c.chunk_id then a
                else a ++ [c]) acc

/-- Lines 84-86: concatenate the PCM of the first VAD_PROCESS_WINDOW
accumulated chunks. -/
def combineWindow (acc : List AudioChunk) : List Byte :=
  (acc.take VAD_PROCESS_WINDOW).foldl (fun b c => b ++ c.audio_data) []

/-- Counter smoothing (lines 107-118); `W` is the run-time value of the
process-global `AppConfig.VAD_SMOOTHING_WINDOW`. -/
def vadCounterUpdate (W : Int) (is_speech : Bool) (vs : VadState) : VadState :=
  if is_speech then
    { vs with speech_count := min (vs.speech_count + 1) W,
              silence_count := max 0 (vs.silence_count - 1) }
  else
    { vs with silence_count := min (vs.silence_count + 1) W,
              speech_count := max 0 (vs.speech_count - 1) }

/-- A dummy chunk standing for an out-of-bounds Python list index; every
use below is guarded by a non-emptiness fact. -/
def dummyChunk : AudioChunk := AudioChunk.new 0 0 []

/-- Dynamic-threshold state machine (lines 120-166), on the sorted
accumulator `acc2`.  Returns the updated state together with
`(state_changed, speech_start_id, speech_end_id)`. -/
def vadThresholdCases (W : Int) (acc2 : List AudioChunk) (vs : VadState) :
    VadState × Bool × Option Int × Option Int :=
  if vs.vad_is_speaking = false ∧ 1 ≤ vs.speech_count then
    let h := acc2.headD dummyChunk
    let nt := min (vs.current_vad_threshold + VAD_THRESHOLD_STEP) VAD_THRESHOLD_MAX
    ({ vs with vad_is_speaking := true,
               speech_start_chunk_id := h.chunk_id,
               speech_start_time := h.timestamp,
               current_vad_threshold := nt },
      true, some h.chunk_id, none)
  else if vs.vad_is_speaking = true ∧ 0 < vs.speech_count then
    let nt := min (vs.current_vad_threshold + VAD_THRESHOLD_STEP * (3/10)) VAD_THRESHOLD_MAX
    ({ vs with current_vad_threshold := nt }, false, none, none)
  else if vs.vad_is_speaking = true ∧ W ≤ vs.silence_count then
    let l := acc2.getLastD dummyChunk
    ({ vs with vad_is_speaking := false,
               current_vad_threshold := VAD_THRESHOLD_MIN },
      true, none, some l.chunk_id)
  else if vs.vad_is_speaking = false ∧ W ≤ vs.silence_count then
    ({ vs with current_vad_threshold := VAD_THRESHOLD_MIN }, false, none, none)
  else (vs, false, none, none)

/-- process_vad (vad_processor_manager.py 42-182).  The `engine` oracle
stands for the VAD model call; `g` is the process-global mutable config
(the smoothing window is read from it at run time, lines 109/113/154/165,
whereas the `get_chunks_for_vad` call on line 52 uses the Python default
argument, which was fixed to 2 at class-definition time).  `np.frombuffer`
raises on an odd byte count, which lands in the `except` branch
(lines 175-181); that branch clamps the threshold and clears the
accumulator, leaving the counters as they were before the engine call. -/
def processVad (g : AppConfigMutable) (engine : VadEngine)
    (vs : VadState) (m : AudioBufferManager) :
    VadState × Bool × Option Int × Option Int :=
  let recent := m.get_chunks_for_vad VAD_SMOOTHING_WINDOW
  match recent.getLast? with
  | none => (vs, false, none, none)
  | some lastChunk =>
    let vs1 := if vs.last_processed_chunk_id < lastChunk.chunk_id
               then { vs with last_processed_chunk_id := lastChunk.chunk_id }
               else vs
    let acc1 := accumulateChunks vs1.chunk_accumulator recent
    if acc1.length < VAD_PROCESS_WINDOW then
      ({ vs1 with chunk_accumulator := acc1 }, false, none, none)
    else
      let acc2 := List.insertionSort (fun a b => a.chunk_id ≤ b.chunk_id) acc1
      let vs2 := { vs1 with chunk_accumulator := acc2 }
      let combined := combineWindow acc2
      if combined.length % 2 ≠ 0 then
        ({ vs2 with current_vad_threshold := clampThreshold vs2.current_vad_threshold,
                    chunk_accumulator := [] }, false, none, none)
      else if combined.length / 2 = 0 then
        ({ vs2 with chunk_accumulator := acc2.drop VAD_PROCESS_WINDOW }, false, none, none)
      else
        match engine combined vs2.current_vad_threshold with
        | .error _ =>
          ({ vs2 with current_vad_threshold := clampThreshold vs2.current_vad_threshold,
                      chunk_accumulator := [] }, false, none, none)
        | .ok is_speech =>
          let vs3 := vadCounterUpdate g.VAD_SMOOTHING_WINDOW is_speech vs2
          let r := vadThresholdCases g.VAD_SMOOTHING_WINDOW acc2 vs3
          ({ r.1 with current_vad_threshold := clampThreshold r.1.current_vad_threshold,
                      chunk_accumulator := acc2.drop VAD_PROCESS_WINDOW },
            r.2.1, r.2.2.1, r.2.2.2)

/-! ## transcription_manager.py -/

/-- transcribe_temporary (transcription_manager.py 19-28); `asr` is the
opaque ASR engine, an exception also yields "". -/
def transcribe_temporary (asr : List Byte → String) (audio_data : List Byte) :
    String :=
  if audio_data.length < AUDIO_CHUNK_SIZE then "" else asr audio_data

/-- transcribe_committed (transcription_manager.py 30-41).  The second
component records the PCM buffers on which the ASR engine was actually
invoked (observational instrumentation; the source returns only the
string). -/
def transcribe_committed (asr : List Byte → ℚ → String) (audio_data : List Byte)
    (segment_duration : ℚ) : String × List (List Byte) :=
  if audio_data.length < AUDIO_CHUNK_SIZE * 2 then ("", [])
  else (asr audio_data segment_duration, [audio_data])

/-! ## connection_manager.py -/

/-- One message sent to the client, restricted to the fields the claims
are about.  `uid` is the `id(segment)` of the utterance the message
belongs to (for tentative messages, the segment that was open when the
message was produced); `part` is the 1-based sub-segment index of a split
committed output (`id(U) || "_part_" || i`), `none` for an unsplit one. -/
inductive Emission where
  | tentative (uid : ℕ) (current_text text : String) (ts : ℚ)
  | committed (uid : ℕ) (part : Option ℕ) (text : String)
      (start_time end_time dur ts : ℚ) (audio_length : ℕ)
deriving DecidableEq

def BYTES_PER_SEC : ℕ := AUDIO_SAMPLE_RATE * 2
/-- max_bytes = int(MAX_SEGMENT_DURATION * bytes_per_sec) = 960000. -/
def MAX_SEGMENT_BYTES : ℕ := 960000
/-- num_subsegments = math.ceil(len / max_bytes), as exact ceiling
division. -/
def numSubsegments (len : ℕ) : ℕ :=
  (len + MAX_SEGMENT_BYTES - 1) / MAX_SEGMENT_BYTES

/-- Result of process_committed_transcription: the (possibly updated)
segment object, the committed_output messages in emission order, and the
instrumented list of ASR-engine calls. -/
structure CommitOutcome where
  seg : SpeechSegment
  ems : List Emission
  calls : List (List Byte)
deriving DecidableEq

/-- Loop body of the over-long split (connection_manager.py 209-236):
running state is (messages, non-empty sub-transcripts, ASR calls). -/
def commitSplitStep (asr : List Byte → ℚ → String) (now : ℚ)
    (seg : SpeechSegment) (audio_data : List Byte)
    (st : List Emission × List String × List (List Byte)) (i : ℕ) :
    List Emission × List String × List (List Byte) :=
  let start_byte := i * MAX_SEGMENT_BYTES
  let end_byte := min (start_byte + MAX_SEGMENT_BYTES) audio_data.length
  let sub_audio := (audio_data.drop start_byte).take (end_byte - start_byte)
  let sub_duration : ℚ := (sub_audio.length : ℚ) / (BYTES_PER_SEC : ℚ)
  let sub_start_time := seg.start_time + (i : ℚ) * MAX_SEGMENT_DURATION
  let sub_end_time := sub_start_time + sub_duration
  let r := transcribe_committed asr sub_audio sub_duration
  if r.1 = "" then (st.1, st.2.1, st.2.2 ++ r.2)
  else
    (st.1 ++ [Emission.committed seg.uid (some (i + 1)) r.1
        sub_start_time sub_end_time sub_duration now sub_audio.length],
      st.2.1 ++ [r.1], st.2.2 ++ r.2)

/-- process_committed_transcription (connection_manager.py 169-245), after
`audio_data` has been read from the buffer (line 172); `now` is the
`time.time()` at which `_send_committed_result` stamps the messages. -/
def processCommittedAudio (asr : List Byte → ℚ → String) (now : ℚ)
    (seg : SpeechSegment) (audio_data : List Byte) : CommitOutcome :=
  if audio_data.length < AUDIO_CHUNK_SIZE * 2 then ⟨seg, [], []⟩
  else
    let actual_duration : ℚ := (audio_data.length : ℚ) / (BYTES_PER_SEC : ℚ)
    let segment_duration := min actual_duration (seg.durationAt now)
    if segment_duration ≤ MAX_SEGMENT_DURATION then
      let r := transcribe_committed asr audio_data segment_duration
      if r.1 = "" then ⟨seg, [], r.2⟩
      else
        ⟨{ seg with transcript := r.1 },
          [Emission.committed seg.uid none r.1 seg.start_time seg.end_time
            segment_duration now audio_data.length],
          r.2⟩
    else
      let n := numSubsegments audio_data.length
      let acc := (List.range n).foldl (commitSplitStep asr now seg audio_data) ([], [], [])
      ⟨{ seg with transcript := String.intercalate " " acc.2.1 }, acc.1, acc.2.2⟩

/-- ConnectionManager per-connection state (connection_manager.py 25-36),
restricted to the fields the vad_loop reads.  `next_uid` is the allocator
for segment identities. -/
structure ConnState where
  buf : AudioBufferManager
  vad : VadState
  saved_temporary_transcription_text : String
  last_temporary_transcription_time : ℚ
  next_uid : ℕ
deriving DecidableEq

def ConnState.new (t0 : ℚ) : ConnState :=
  ⟨AudioBufferManager.new t0, VadState.new, "", 0, 0⟩

/-- process_temporary_transcription (connection_manager.py 127-166). -/
def processTemporary (asrT : List Byte → String) (now : ℚ) (s : ConnState) :
    ConnState × List Emission :=
  match s.buf.current_segment with
  | none => (s, [])
  | some seg =>
    if s.vad.vad_is_speaking = false then (s, [])
    else
      let chunks := s.buf.get_temporary_transcription_chunks
      if chunks = [] then (s, [])
      else
        let audio_data := chunks.foldl (fun b c => b ++ c.audio_data) []
        let transcript := transcribe_temporary asrT audio_data
        if transcript = "" then (s, [])
        else
          let saved := s.saved_temporary_transcription_text ++ transcript
          ({ s with saved_temporary_transcription_text := saved },
            [Emission.tentative seg.uid transcript saved now])

/-- Speech-start branch of the vad_loop (connection_manager.py 68-74).
`none` models the KeyError raised by `chunk_buffer[speech_start_id]` when
the chunk is absent, which aborts the loop iteration via the outer
`except` (line 100). -/
def loopStart (s1 : ConnState) (state_changed : Bool) (sid? : Option Int)
    (user_speaking : Bool) : Option ConnState :=
  if state_changed = true then
    match sid? with
    | some sid =>
      if user_speaking = true then
        match s1.buf.chunk_buffer.find? (fun c => c.chunk_id == sid) with
        | none => none
        | some ch =>
          let p := s1.buf.create_speech_segment sid ch.timestamp s1.next_uid
          some { s1 with buf := p.1, next_uid := s1.next_uid + 1 }
      else some s1
    | none => some s1
  else some s1

/-- Speech-end branch of the vad_loop (connection_manager.py 76-85):
finalize the open segment, reset the saved tentative text, run the
committed transcription (whose transcript is written back onto the stored
segment object, modelling the Python aliasing).  `none` again models a
KeyError on the chunk lookup. -/
def loopEnd (asrC : List Byte → ℚ → String) (now : ℚ) (s2 : ConnState)
    (state_changed : Bool) (eid? : Option Int) (user_speaking : Bool) :
    Option (ConnState × List Emission) :=
  if state_changed = true then
    match eid? with
    | some eid =>
      if user_speaking = false then
        match s2.buf.chunk_buffer.find? (fun c => c.chunk_id == eid) with
        | none => none
        | some ch =>
          let q := s2.buf.finalize_current_segment eid ch.timestamp
          match q.2 with
          | some segF =>
            let s3 := { s2 with buf := q.1, saved_temporary_transcription_text := "" }
            let co := processCommittedAudio asrC now segF
              (q.1.get_committed_audio_data segF)
            let buf2 := { q.1 with speech_segments :=
              q.1.speech_segments.map (fun x => if x.uid == segF.uid then co.seg else x) }
            some ({ s3 with buf := buf2 }, co.ems)
          | none => some ({ s2 with buf := q.1 }, [])
      else some (s2, [])
    | none => some (s2, [])
  else some (s2, [])

/-- One iteration of the vad_loop (connection_manager.py 44-103), at
wall-clock `now`: run process_vad, handle a state change (speech start /
speech end with committed transcription), then the 1 Hz tentative
transcription.  An aborted iteration (KeyError) keeps the state mutated so
far and emits nothing. -/
def loopTick (g : AppConfigMutable) (engine : VadEngine)
    (asrT : List Byte → String) (asrC : List Byte → ℚ → String)
    (now : ℚ) (s : ConnState) : ConnState × List Emission :=
  let r := processVad g engine s.vad s.buf
  let s1 := { s with vad := r.1 }
  let user_speaking := r.1.vad_is_speaking
  match loopStart s1 r.2.1 r.2.2.1 user_speaking with
  | none => (s1, [])
  | some s2 =>
    match loopEnd asrC now s2 r.2.1 r.2.2.2 user_speaking with
    | none => (s2, [])
    | some (s4, ems1) =>
      if user_speaking = true ∧ 1 ≤ now - s4.last_temporary_transcription_time then
        let p := processTemporary asrT now s4
        ({ p.1 with last_temporary_transcription_time := now }, ems1 ++ p.2)
      else (s4, ems1)

/-! ## main.py WebSocket ingress (lines 722-762) -/

/-- Frames admitted from one binary payload (main.py 722-762): empty
payloads are discarded; an exact-size payload is one frame; a short
payload is zero-padded on the right; a long payload is cut at
`range(0, len - CHUNK + 1, CHUNK)` into full slices, each admitted only if
it has full size (the guard on line 750), and the tail is dropped. -/
def admittedFrames (payload : List Byte) : List (List Byte) :=
  if payload.length = 0 then []
  else if payload.length = AUDIO_CHUNK_SIZE then [payload]
  else if payload.length < AUDIO_CHUNK_SIZE then
    [payload ++ List.replicate (AUDIO_CHUNK_SIZE - payload.length) 0]
  else
    ((List.range ((payload.length - AUDIO_CHUNK_SIZE) / AUDIO_CHUNK_SIZE + 1)).map
        (fun k => (payload.drop (k * AUDIO_CHUNK_SIZE)).take AUDIO_CHUNK_SIZE)).filter
      (fun chunk => chunk.length == AUDIO_CHUNK_SIZE)

/-- process_audio_chunk for every admitted frame of one payload
(main.py 748-762 with connection_manager.py 108-125). -/
def ingestPayload (m : AudioBufferManager) (now : ℚ) (payload : List Byte) :
    AudioBufferManager :=
  (admittedFrames payload).foldl (fun b f => (b.add_audio_chunk now f).1) m

/-- Same as `ingestPayload` but also returns the admitted chunks in
admission order (the values returned by add_audio_chunk). -/
def ingestPayloadTrace (m : AudioBufferManager) (now : ℚ) (payload : List Byte) :
    AudioBufferManager × List AudioChunk :=
  (admittedFrames payload).foldl
    (fun acc f =>
      let r := acc.1.add_audio_chunk now f
      (r.1, acc.2 ++ [r.2])) (m, [])

/-- `ingestPayloadTrace` over a whole session of (time, payload) pairs. -/
def ingestManyTrace (m : AudioBufferManager) (pls : List (ℚ × List Byte)) :
    AudioBufferManager × List AudioChunk :=
  pls.foldl
    (fun acc pl =>
      let r := ingestPayloadTrace acc.1 pl.1 pl.2
      (r.1, acc.2 ++ r.2)) (m, [])

/-- Input of one scheduling round of a streaming session: the binary
payloads the ingress reader processed since the previous vad_loop
iteration, the wall clock, and the engine behaviours for this round. -/
structure TickInput where
  now : ℚ
  payloads : List (List Byte)
  engine : VadEngine
  asrT : List Byte → String
  asrC : List Byte → ℚ → String

/-- One scheduling round: ingress writes its frames, then one vad_loop
iteration runs. -/
def sessionStep (g : AppConfigMutable) (inp : TickInput) (s : ConnState) :
    ConnState × List Emission :=
  let buf0 := inp.payloads.foldl (fun b p => ingestPayload b inp.now p) s.buf
  loopTick g inp.engine inp.asrT inp.asrC inp.now { s with buf := buf0 }

/-- A whole streaming session: the emissions of every round, in order. -/
def sessionRun (g : AppConfigMutable) (s0 : ConnState) (inps : List TickInput) :
    ConnState × List Emission :=
  inps.foldl
    (fun acc inp =>
      let r := sessionStep g inp acc.1
      (r.1, acc.2 ++ r.2)) (s0, [])

/-- Utterance a message belongs to. -/
def Emission.uidOf : Emission → ℕ
  | .tentative u _ _ _ => u
  | .committed u _ _ _ _ _ _ _ => u

def Emission.isTentFor (u : ℕ) : Emission → Bool
  | .tentative v _ _ _ => v == u
  | .committed _ _ _ _ _ _ _ _ => false

def Emission.isCommFor (u : ℕ) : Emission → Bool
  | .tentative _ _ _ _ => false
  | .committed v _ _ _ _ _ _ _ => v == u

def Emission.partOf : Emission → Option ℕ
  | .tentative _ _ _ _ => none
  | .committed _ p _ _ _ _ _ _ => p


/-! ## Concrete scenario fixtures used by counterexamples and witnesses -/

/-- Ten 2-byte chunks with ids 0..9, a full VAD accumulator's worth. -/
def chunksTen : List AudioChunk :=
  (List.range 10).map (fun k => AudioChunk.new (k : Int) 0 [0, 0])

/-- A VAD state mid-utterance: speaking, one silence vote and one speech
vote pending, accumulator already full. -/
def vsScenario : VadState := ⟨true, 0, 0, 1, 1, 9, 1/2, chunksTen⟩

/-- A buffer holding one fresh unprocessed chunk (id 10). -/
def mScenario : AudioBufferManager :=
  ⟨[AudioChunk.new 10 0 [0, 0]], [], none, 11, 0⟩

/-! # Theorems -/

/-! ## Helper lemmas about the capped segment list -/

lemma cap_mem_last (l : List SpeechSegment) (x : SpeechSegment) :
    x ∈ (if MAX_SPEECH_SEGMENTS < (l ++ [x]).length
          then (l ++ [x]).drop 1 else l ++ [x]) := by
  split
  · rename_i h
    have h1le : 1 ≤ l.length := by
      rcases l with _ | ⟨a, l⟩
      · simp [MAX_SPEECH_SEGMENTS] at h
      · simp
    rw [List.drop_append_of_le_length h1le]
    exact List.mem_append.2 (Or.inr (List.mem_singleton.2 rfl))
  · exact List.mem_append.2 (Or.inr (List.mem_singleton.2 rfl))

lemma cap_subset (l : List SpeechSegment) (x : SpeechSegment) :
    ∀ s ∈ (if MAX_SPEECH_SEGMENTS < (l ++ [x]).length
            then (l ++ [x]).drop 1 else l ++ [x]), s ∈ l ++ [x] := by
  intro s hs
  split at hs
  · exact List.mem_of_mem_drop hs
  · exact hs

lemma cap_length (l : List SpeechSegment) (x : SpeechSegment)
    (h : l.length ≤ MAX_SPEECH_SEGMENTS) :
    (if MAX_SPEECH_SEGMENTS < (l ++ [x]).length
      then (l ++ [x]).drop 1 else l ++ [x]).length ≤ MAX_SPEECH_SEGMENTS := by
  split
  · rename_i hov
    simp only [List.length_drop, List.length_append, List.length_singleton] at *
    omega
  · rename_i hov
    simp only [List.length_append, List.length_singleton] at *
    omega

/-! ## C1 — ring-buffer eviction versus the open utterance -/

/-- C1 counterexample: a state with an open utterance whose first frame
(chunk 0, inside `[start_chunk_id, latest]`) is 100 s old; the very next
`add_audio_chunk` call triggers `_cleanup_old_chunks`, which evicts that
frame even though the utterance is still open — refuting the claim that
such frames are never removed. -/
theorem C1_counterexample :
    (let m0 : AudioBufferManager :=
      ⟨[AudioChunk.new 0 0 [0, 0]], [], some (SpeechSegment.new 0 0 0), 1, 0⟩
     let m1 := (m0.add_audio_chunk 100 [0, 0]).1
     m0.current_segment = some (SpeechSegment.new 0 0 0) ∧
      (SpeechSegment.new 0 0 0).start_chunk_id = 0 ∧
      (AudioChunk.new 0 0 [0, 0]) ∈ m0.chunk_buffer ∧
      (AudioChunk.new 0 0 [0, 0]).chunk_id = 0 ∧
      (AudioChunk.new 0 0 [0, 0]).timestamp < 100 - MAX_AUDIO_BUFFER_SECONDS ∧
      m1.chunk_buffer = [AudioChunk.new 1 100 [0, 0]]) := by
  refine ⟨rfl, rfl, by simp, rfl, ?_, ?_⟩
  · norm_num [AudioChunk.new, MAX_AUDIO_BUFFER_SECONDS]
  · norm_num [AudioBufferManager.add_audio_chunk, AudioBufferManager.cleanup_old_chunks,
      AudioChunk.new, MAX_AUDIO_BUFFER_SECONDS, List.filter]

/-- C1 (amended): when `add_audio_chunk` triggers the eviction pass (at
least one second since the previous one), the chunks retained afterwards
are exactly the previously buffered chunks plus the new one whose
timestamp is within `MAX_AUDIO_BUFFER_SECONDS` of now — membership of the
open utterance's id range grants no protection. -/
theorem C1_retention (m : AudioBufferManager) (now : ℚ) (ad : List Byte)
    (c : AudioChunk) (hrun : 1 ≤ now - m.last_cleanup_time) :
    c ∈ ((m.add_audio_chunk now ad).1).chunk_buffer ↔
      ((c ∈ m.chunk_buffer ∨ c = AudioChunk.new m.next_chunk_id now ad) ∧
        now - MAX_AUDIO_BUFFER_SECONDS ≤ c.timestamp) := by
  have h1 : ¬ (now - m.last_cleanup_time < 1) := by linarith
  simp [AudioBufferManager.add_audio_chunk, AudioBufferManager.cleanup_old_chunks,
    h1, List.mem_filter, List.mem_append, not_lt]
  tauto

/-- C1 witness: the amended retention law evaluated on the counterexample
state. -/
theorem C1_retention_witness :
    (1 : ℚ) ≤ 100 - 0 ∧
      ((AudioChunk.new 0 0 [0, 0]) ∈
          (((⟨[AudioChunk.new 0 0 [0, 0]], [], some (SpeechSegment.new 0 0 0), 1, 0⟩ :
            AudioBufferManager).add_audio_chunk 100 [0, 0]).1).chunk_buffer ↔
        (((AudioChunk.new 0 0 [0, 0]) ∈
            (⟨[AudioChunk.new 0 0 [0, 0]], [], some (SpeechSegment.new 0 0 0), 1, 0⟩ :
              AudioBufferManager).chunk_buffer ∨
          AudioChunk.new 0 0 [0, 0] = AudioChunk.new 1 100 [0, 0]) ∧
          100 - MAX_AUDIO_BUFFER_SECONDS ≤ (AudioChunk.new 0 0 [0, 0]).timestamp)) :=
  ⟨by norm_num, C1_retention _ 100 [0, 0] _ (by norm_num)⟩

/-! ## C9 — single open utterance, force-finalize, FIFO cap -/

/-- C9: `create_speech_segment` while a segment is open finalizes the
previous segment at `end_chunk_id = start_chunk_id - 1` with the new start
time, appends it to the retained list (capped at MAX_SPEECH_SEGMENTS,
oldest dropped first), and only then opens the new segment;
`finalize_current_segment` leaves no open segment; both preserve the
single-open-utterance invariant (every retained segment is finalized, so
only `current_segment` can be unfinalized). -/
theorem C9_single_open (m : AudioBufferManager) (sid : Int) (t : ℚ) (uid : ℕ)
    (eid : Int) (te : ℚ)
    (hlen : m.speech_segments.length ≤ MAX_SPEECH_SEGMENTS)
    (hfin : ∀ s ∈ m.speech_segments, s.is_final = true) :
    ((m.create_speech_segment sid t uid).1.current_segment
        = some (SpeechSegment.new sid t uid) ∧
      (SpeechSegment.new sid t uid).is_final = false ∧
      (∀ s ∈ (m.create_speech_segment sid t uid).1.speech_segments, s.is_final = true) ∧
      (m.create_speech_segment sid t uid).1.speech_segments.length ≤ MAX_SPEECH_SEGMENTS ∧
      (∀ cur, m.current_segment = some cur →
        cur.finalize (sid - 1) t ∈ (m.create_speech_segment sid t uid).1.speech_segments ∧
        (cur.finalize (sid - 1) t).end_chunk_id = sid - 1 ∧
        (cur.finalize (sid - 1) t).end_time = t ∧
        (cur.finalize (sid - 1) t).is_final = true ∧
        (m.speech_segments.length = MAX_SPEECH_SEGMENTS →
          (m.create_speech_segment sid t uid).1.speech_segments
            = (m.speech_segments ++ [cur.finalize (sid - 1) t]).drop 1) ∧
        (m.speech_segments.length < MAX_SPEECH_SEGMENTS →
          (m.create_speech_segment sid t uid).1.speech_segments
            = m.speech_segments ++ [cur.finalize (sid - 1) t]))) ∧
    ((m.finalize_current_segment eid te).1.current_segment = none ∧
      (∀ s ∈ (m.finalize_current_segment eid te).1.speech_segments, s.is_final = true) ∧
      (m.finalize_current_segment eid te).1.speech_segments.length ≤ MAX_SPEECH_SEGMENTS ∧
      (∀ cur, m.current_segment = some cur →
        (m.finalize_current_segment eid te).2 = some (cur.finalize eid te))) := by
  constructor
  · match hc : m.current_segment with
    | none =>
      refine ⟨by simp [AudioBufferManager.create_speech_segment, hc], rfl,
        by simpa [AudioBufferManager.create_speech_segment, hc] using hfin,
        by simpa [AudioBufferManager.create_speech_segment, hc] using hlen, ?_⟩
      intro cur hcur
      cases hcur
    | some cur0 =>
      have hsegs : (m.create_speech_segment sid t uid).1.speech_segments
          = (if MAX_SPEECH_SEGMENTS < (m.speech_segments ++ [cur0.finalize (sid - 1) t]).length
              then (m.speech_segments ++ [cur0.finalize (sid - 1) t]).drop 1
              else m.speech_segments ++ [cur0.finalize (sid - 1) t]) := by
        simp [AudioBufferManager.create_speech_segment, hc]
      refine ⟨by simp [AudioBufferManager.create_speech_segment, hc], rfl, ?_, ?_, ?_⟩
      · intro s hs
        rw [hsegs] at hs
        rcases List.mem_append.1 (cap_subset _ _ s hs) with h | h
        · exact hfin s h
        · rcases List.mem_singleton.1 h with rfl
          rfl
      · rw [hsegs]; exact cap_length _ _ hlen
      · intro cur hcur
        obtain rfl : cur0 = cur := Option.some_inj.1 hcur
        refine ⟨?_, rfl, rfl, rfl, ?_, ?_⟩
        · rw [hsegs]; exact cap_mem_last _ _
        · intro heq
          rw [hsegs]
          have : MAX_SPEECH_SEGMENTS < (m.speech_segments ++ [cur0.finalize (sid - 1) t]).length := by
            simp [heq]
          simp only [this, if_true]
        · intro hlt
          rw [hsegs]
          have : ¬ MAX_SPEECH_SEGMENTS < (m.speech_segments ++ [cur0.finalize (sid - 1) t]).length := by
            simp only [List.length_append, List.length_singleton]
            omega
          simp only [this, if_false]
  · match hc : m.current_segment with
    | none =>
      refine ⟨by simp [AudioBufferManager.finalize_current_segment, hc],
        by simpa [AudioBufferManager.finalize_current_segment, hc] using hfin,
        by simpa [AudioBufferManager.finalize_current_segment, hc] using hlen, ?_⟩
      intro cur hcur
      cases hcur
    | some cur0 =>
      have hsegs : (m.finalize_current_segment eid te).1.speech_segments
          = (if MAX_SPEECH_SEGMENTS < (m.speech_segments ++ [cur0.finalize eid te]).length
              then (m.speech_segments ++ [cur0.finalize eid te]).drop 1
              else m.speech_segments ++ [cur0.finalize eid te]) := by
        simp [AudioBufferManager.finalize_current_segment, hc]
      refine ⟨by simp [AudioBufferManager.finalize_current_segment, hc], ?_, ?_, ?_⟩
      · intro s hs
        rw [hsegs] at hs
        rcases List.mem_append.1 (cap_subset _ _ s hs) with h | h
        · exact hfin s h
        · rcases List.mem_singleton.1 h with rfl
          rfl
      · rw [hsegs]; exact cap_length _ _ hlen
      · intro cur hcur
        obtain rfl : cur0 = cur := Option.some_inj.1 hcur
        simp [AudioBufferManager.finalize_current_segment, hc]

/-- C9 witness: the lifecycle law evaluated on a one-segment state. -/
theorem C9_single_open_witness :
    (let m0 : AudioBufferManager :=
      ⟨[], [], some (SpeechSegment.new 0 0 7), 5, 0⟩
     m0.speech_segments.length ≤ MAX_SPEECH_SEGMENTS ∧
      (∀ s ∈ m0.speech_segments, s.is_final = true) ∧
      ((m0.create_speech_segment 3 2 8).1.current_segment
          = some (SpeechSegment.new 3 2 8) ∧
        (m0.finalize_current_segment 4 9).1.current_segment = none)) := by
  refine ⟨by simp [MAX_SPEECH_SEGMENTS], by simp, ?_, ?_⟩
  · exact (C9_single_open _ 3 2 8 4 9 (by simp [MAX_SPEECH_SEGMENTS]) (by simp)).1.1
  · exact (C9_single_open _ 3 2 8 4 9 (by simp [MAX_SPEECH_SEGMENTS]) (by simp)).2.1

/-! ## C2 — cross-connection sharing of the VAD config -/

/-- C2 counterexample: connection B sits mid-utterance with one pending
silence vote.  With the startup config (smoothing_window = 2) its next
silence verdict ends the utterance (state change, speaking becomes
false); after connection A's `vad_config` update sets the process-global
smoothing_window to 5, the very same frame stream produces no state
change and B keeps speaking — so A's update changed B's behaviour,
refuting the claimed isolation. -/
theorem C2_counterexample :
    (processVad AppConfigMutable.startup (fun _ _ => Except.ok false)
        vsScenario mScenario).2.1 = true ∧
      (processVad AppConfigMutable.startup (fun _ _ => Except.ok false)
          vsScenario mScenario).1.vad_is_speaking = false ∧
      update_vad_config AppConfigMutable.startup (6/10) 5
        = ⟨6/10, 5⟩ ∧
      (processVad (update_vad_config AppConfigMutable.startup (6/10) 5)
          (fun _ _ => Except.ok false) vsScenario mScenario).2.1 = false ∧
      (processVad (update_vad_config AppConfigMutable.startup (6/10) 5)
          (fun _ _ => Except.ok false) vsScenario mScenario).1.vad_is_speaking = true := by
  refine ⟨rfl, rfl, rfl, rfl, rfl⟩

/-- C2 (amended): a `vad_config` update of `speech_threshold` alone never
affects any connection's VAD processing (process_vad reads only the
per-connection adaptive threshold, never VAD_SPEECH_THRESHOLD), but
`smoothing_window` lives in the process-global AppConfig that every
connection's process_vad reads at call time, so updating it does leak
across connections (see the counterexample). -/
theorem C2_speech_threshold_invariance (a b : ℚ) (W : Int) (engine : VadEngine)
    (vs : VadState) (m : AudioBufferManager) :
    processVad ⟨a, W⟩ engine vs m = processVad ⟨b, W⟩ engine vs m := rfl

/-! ## C5 — adaptive threshold bounds -/

lemma clamp_bounds (x : ℚ) :
    VAD_THRESHOLD_MIN ≤ clampThreshold x ∧ clampThreshold x ≤ VAD_THRESHOLD_MAX := by
  constructor
  · exact le_max_left _ _
  · apply max_le
    · norm_num [VAD_THRESHOLD_MIN, VAD_THRESHOLD_MAX]
    · exact min_le_left _ _

/-- C5: starting from a threshold inside [threshold_min, threshold_max]
(in particular from the initial 0.3), every process_vad call — utterance
start, continuation, end, prolonged silence, the exception path and all
early returns — leaves current_vad_threshold inside
[threshold_min, threshold_max] = [0.3, 0.9]. -/
theorem C5_threshold_bounds (g : AppConfigMutable) (engine : VadEngine)
    (vs : VadState) (m : AudioBufferManager)
    (hlo : VAD_THRESHOLD_MIN ≤ vs.current_vad_threshold)
    (hhi : vs.current_vad_threshold ≤ VAD_THRESHOLD_MAX) :
    (VAD_THRESHOLD_MIN ≤ (processVad g engine vs m).1.current_vad_threshold ∧
      (processVad g engine vs m).1.current_vad_threshold ≤ VAD_THRESHOLD_MAX) ∧
    (VadState.new.current_vad_threshold = VAD_INITIAL_THRESHOLD ∧
      VAD_THRESHOLD_MIN ≤ VAD_INITIAL_THRESHOLD ∧
      VAD_INITIAL_THRESHOLD ≤ VAD_THRESHOLD_MAX) := by
  refine ⟨?_, rfl, by norm_num [VAD_THRESHOLD_MIN, VAD_INITIAL_THRESHOLD],
    by norm_num [VAD_THRESHOLD_MAX, VAD_INITIAL_THRESHOLD]⟩
  simp only [processVad]
  repeat' split
  all_goals first
    | exact ⟨hlo, hhi⟩
    | exact clamp_bounds _

/-- C5 witness: the bound evaluated at the freshly initialized VAD state
on the scenario buffer. -/
theorem C5_threshold_bounds_witness :
    (VAD_THRESHOLD_MIN ≤ VadState.new.current_vad_threshold ∧
      VadState.new.current_vad_threshold ≤ VAD_THRESHOLD_MAX) ∧
    (VAD_THRESHOLD_MIN ≤ (processVad AppConfigMutable.startup (fun _ _ => Except.ok true)
        VadState.new mScenario).1.current_vad_threshold ∧
      (processVad AppConfigMutable.startup (fun _ _ => Except.ok true)
        VadState.new mScenario).1.current_vad_threshold ≤ VAD_THRESHOLD_MAX) :=
  ⟨⟨by norm_num [VadState.new, VAD_THRESHOLD_MIN, VAD_INITIAL_THRESHOLD],
    by norm_num [VadState.new, VAD_THRESHOLD_MAX, VAD_INITIAL_THRESHOLD]⟩,
    (C5_threshold_bounds AppConfigMutable.startup (fun _ _ => Except.ok true)
      VadState.new mScenario
      (by norm_num [VadState.new, VAD_THRESHOLD_MIN, VAD_INITIAL_THRESHOLD])
      (by norm_num [VadState.new, VAD_THRESHOLD_MAX, VAD_INITIAL_THRESHOLD])).1⟩

/-! ## C8 — VAD engine failure policy -/

/-- C8: when the state reaches the engine call (non-empty recent chunks,
full accumulator, valid int16 buffer) and the engine raises, process_vad
returns without signalling a state change, the accumulator is cleared,
and speech_count, silence_count and vad_is_speaking are exactly as before
the call. -/
theorem C8_engine_failure (g : AppConfigMutable) (engine : VadEngine)
    (vs : VadState) (m : AudioBufferManager) (lc : AudioChunk)
    (hl : (m.get_chunks_for_vad VAD_SMOOTHING_WINDOW).getLast? = some lc)
    (hfull : ¬ (accumulateChunks vs.chunk_accumulator
        (m.get_chunks_for_vad VAD_SMOOTHING_WINDOW)).length < VAD_PROCESS_WINDOW)
    (heven : (combineWindow (List.insertionSort (fun a b => a.chunk_id ≤ b.chunk_id)
        (accumulateChunks vs.chunk_accumulator
          (m.get_chunks_for_vad VAD_SMOOTHING_WINDOW)))).length % 2 = 0)
    (hpos : (combineWindow (List.insertionSort (fun a b => a.chunk_id ≤ b.chunk_id)
        (accumulateChunks vs.chunk_accumulator
          (m.get_chunks_for_vad VAD_SMOOTHING_WINDOW)))).length / 2 ≠ 0)
    (herr : engine (combineWindow (List.insertionSort (fun a b => a.chunk_id ≤ b.chunk_id)
        (accumulateChunks vs.chunk_accumulator
          (m.get_chunks_for_vad VAD_SMOOTHING_WINDOW))))
        vs.current_vad_threshold = Except.error ()) :
    (processVad g engine vs m).1.speech_count = vs.speech_count ∧
    (processVad g engine vs m).1.silence_count = vs.silence_count ∧
    (processVad g engine vs m).1.vad_is_speaking = vs.vad_is_speaking ∧
    (processVad g engine vs m).1.chunk_accumulator = [] ∧
    (processVad g engine vs m).2.1 = false ∧
    (processVad g engine vs m).2.2.1 = none ∧
    (processVad g engine vs m).2.2.2 = none := by
  simp only [processVad, hl]
  by_cases hb : vs.last_processed_chunk_id < lc.chunk_id
  · rw [if_pos hb]
    rw [if_neg hfull, if_neg (by simpa using heven), if_neg hpos, herr]
    exact ⟨rfl, rfl, rfl, rfl, rfl, rfl, rfl⟩
  · rw [if_neg hb]
    rw [if_neg hfull, if_neg (by simpa using heven), if_neg hpos, herr]
    exact ⟨rfl, rfl, rfl, rfl, rfl, rfl, rfl⟩

/-- C8 witness: the failure policy evaluated on the mid-utterance
scenario with an engine that always raises. -/
theorem C8_engine_failure_witness :
    (mScenario.get_chunks_for_vad VAD_SMOOTHING_WINDOW).getLast?
        = some (AudioChunk.new 10 0 [0, 0]) ∧
      (processVad AppConfigMutable.startup (fun _ _ => Except.error ())
          vsScenario mScenario).1.speech_count = vsScenario.speech_count ∧
      (processVad AppConfigMutable.startup (fun _ _ => Except.error ())
          vsScenario mScenario).1.silence_count = vsScenario.silence_count ∧
      (processVad AppConfigMutable.startup (fun _ _ => Except.error ())
          vsScenario mScenario).1.vad_is_speaking = vsScenario.vad_is_speaking ∧
      (processVad AppConfigMutable.startup (fun _ _ => Except.error ())
          vsScenario mScenario).1.chunk_accumulator = [] ∧
      (processVad AppConfigMutable.startup (fun _ _ => Except.error ())
          vsScenario mScenario).2.1 = false := by
  have h := C8_engine_failure AppConfigMutable.startup (fun _ _ => Except.error ())
    vsScenario mScenario (AudioChunk.new 10 0 [0, 0]) rfl (by decide) (by decide)
    (by decide) rfl
  exact ⟨rfl, h.1, h.2.1, h.2.2.1, h.2.2.2.1, h.2.2.2.2.1⟩

lemma add_chunk_id (m : AudioBufferManager) (now : ℚ) (f : List Byte) :
    (m.add_audio_chunk now f).2.chunk_id = m.next_chunk_id := rfl

lemma add_chunk_next (m : AudioBufferManager) (now : ℚ) (f : List Byte) :
    (m.add_audio_chunk now f).1.next_chunk_id = m.next_chunk_id + 1 := by
  unfold AudioBufferManager.add_audio_chunk AudioBufferManager.cleanup_old_chunks
  dsimp only
  split <;> rfl

lemma ingest_fold_out (fs : List (List Byte)) (m : AudioBufferManager) (now : ℚ)
    (out : List AudioChunk) :
    (fs.foldl (fun a f =>
        let r := a.1.add_audio_chunk now f
        (r.1, a.2 ++ [r.2])) (m, out)).2
      = out ++ (fs.foldl (fun a f =>
          let r := a.1.add_audio_chunk now f
          (r.1, a.2 ++ [r.2])) (m, [])).2 ∧
    (fs.foldl (fun a f =>
        let r := a.1.add_audio_chunk now f
        (r.1, a.2 ++ [r.2])) (m, out)).1
      = (fs.foldl (fun a f =>
          let r := a.1.add_audio_chunk now f
          (r.1, a.2 ++ [r.2])) (m, [])).1 := by
  induction fs generalizing m out with
  | nil => simp
  | cons f fs ih =>
    simp only [List.foldl_cons]
    have h1 := ih (m.add_audio_chunk now f).1 (out ++ [(m.add_audio_chunk now f).2])
    have h2 := ih (m.add_audio_chunk now f).1 ([] ++ [(m.add_audio_chunk now f).2])
    refine ⟨?_, ?_⟩
    · rw [h1.1, h2.1]
      simp
    · rw [h1.2, h2.2]

lemma ingest_fold_ids (fs : List (List Byte)) (m : AudioBufferManager) (now : ℚ) :
    ((fs.foldl (fun a f =>
        let r := a.1.add_audio_chunk now f
        (r.1, a.2 ++ [r.2])) (m, [])).1.next_chunk_id
      = m.next_chunk_id + fs.length) ∧
    ((fs.foldl (fun a f =>
        let r := a.1.add_audio_chunk now f
        (r.1, a.2 ++ [r.2])) (m, [])).2.length = fs.length) ∧
    ((fs.foldl (fun a f =>
        let r := a.1.add_audio_chunk now f
        (r.1, a.2 ++ [r.2])) (m, [])).2.map (fun c => c.chunk_id)
      = (List.range fs.length).map (fun n : ℕ => m.next_chunk_id + (n : Int))) := by
  induction fs generalizing m with
  | nil => simp
  | cons f fs ih =>
    simp only [List.foldl_cons]
    have hout := ingest_fold_out fs (m.add_audio_chunk now f).1 now
      ([] ++ [(m.add_audio_chunk now f).2])
    have ih1 := ih (m.add_audio_chunk now f).1
    refine ⟨?_, ?_, ?_⟩
    · rw [hout.2, ih1.1, add_chunk_next]
      simp only [List.length_cons]
      push_cast
      ring
    · rw [hout.1]
      simp only [List.nil_append, List.length_append, List.length_singleton,
        List.length_nil, List.length_cons, ih1.2.1]
      omega
    · rw [hout.1]
      simp only [List.nil_append, List.map_append, List.map_singleton, add_chunk_id,
        ih1.2.2, add_chunk_next, List.length_cons, List.range_succ_eq_map,
        List.map_cons, List.map_map, List.cons_append, List.nil_append,
        List.cons.injEq]
      refine ⟨by simp, ?_⟩
      apply List.map_congr_left
      intro n hn
      simp only [Function.comp_apply]
      push_cast
      ring

lemma ingest_many_out (pls : List (ℚ × List Byte)) (m : AudioBufferManager)
    (out : List AudioChunk) :
    (pls.foldl (fun acc pl =>
        let r := ingestPayloadTrace acc.1 pl.1 pl.2
        (r.1, acc.2 ++ r.2)) (m, out)).2
      = out ++ (ingestManyTrace m pls).2 ∧
    (pls.foldl (fun acc pl =>
        let r := ingestPayloadTrace acc.1 pl.1 pl.2
        (r.1, acc.2 ++ r.2)) (m, out)).1
      = (ingestManyTrace m pls).1 := by
  induction pls generalizing m out with
  | nil => simp [ingestManyTrace]
  | cons pl pls ih =>
    simp only [ingestManyTrace, List.foldl_cons]
    have h1 := ih (ingestPayloadTrace m pl.1 pl.2).1 (out ++ (ingestPayloadTrace m pl.1 pl.2).2)
    have h2 := ih (ingestPayloadTrace m pl.1 pl.2).1 ([] ++ (ingestPayloadTrace m pl.1 pl.2).2)
    rw [h1.1, h2.1, h1.2, h2.2]
    simp [ingestManyTrace]

lemma ingest_many_ids (pls : List (ℚ × List Byte)) (m : AudioBufferManager) :
    ((ingestManyTrace m pls).1.next_chunk_id
      = m.next_chunk_id + (ingestManyTrace m pls).2.length) ∧
    ((ingestManyTrace m pls).2.map (fun c => c.chunk_id)
      = (List.range (ingestManyTrace m pls).2.length).map
          (fun n : ℕ => m.next_chunk_id + (n : Int))) := by
  induction pls generalizing m with
  | nil => simp [ingestManyTrace]
  | cons pl pls ih =>
    have hstep := ingest_fold_ids (admittedFrames pl.2) m pl.1
    have hout := ingest_many_out pls (ingestPayloadTrace m pl.1 pl.2).1
      ([] ++ (ingestPayloadTrace m pl.1 pl.2).2)
    have ih1 := ih (ingestPayloadTrace m pl.1 pl.2).1
    have hr2 : (ingestPayloadTrace m pl.1 pl.2).2.length = (admittedFrames pl.2).length :=
      hstep.2.1
    have hrn : (ingestPayloadTrace m pl.1 pl.2).1.next_chunk_id
        = m.next_chunk_id + (admittedFrames pl.2).length := hstep.1
    have hrid : (ingestPayloadTrace m pl.1 pl.2).2.map (fun c => c.chunk_id)
        = (List.range (admittedFrames pl.2).length).map
            (fun n : ℕ => m.next_chunk_id + (n : Int)) := hstep.2.2
    have hcons : ingestManyTrace m (pl :: pls)
        = ((ingestManyTrace (ingestPayloadTrace m pl.1 pl.2).1 pls).1,
            (ingestPayloadTrace m pl.1 pl.2).2
              ++ (ingestManyTrace (ingestPayloadTrace m pl.1 pl.2).1 pls).2) := by
      simp only [ingestManyTrace, List.foldl_cons]
      rw [Prod.ext_iff]
      refine ⟨hout.2, ?_⟩
      rw [hout.1]
      simp [ingestManyTrace]
    rw [hcons]
    refine ⟨?_, ?_⟩
    · simp only [List.length_append]
      rw [ih1.1, hrn, hr2]
      push_cast
      ring
    · simp only [List.length_append, List.map_append]
      rw [ih1.2, hrid, hrn, hr2, List.range_add, List.map_append, List.map_map]
      congr 1
      apply List.map_congr_left
      intro n _
      simp only [Function.comp_apply]
      push_cast
      ring

lemma admittedFrames_long (payload : List Byte) (h : AUDIO_CHUNK_SIZE < payload.length) :
    admittedFrames payload
      = (List.range (payload.length / AUDIO_CHUNK_SIZE)).map
          (fun k => (payload.drop (k * AUDIO_CHUNK_SIZE)).take AUDIO_CHUNK_SIZE) := by
  have hCS : AUDIO_CHUNK_SIZE = 2048 := rfl
  unfold admittedFrames
  rw [hCS] at h ⊢
  rw [if_neg (by omega), if_neg (by omega), if_neg (by omega)]
  have hcnt : (payload.length - 2048) / 2048 + 1 = payload.length / 2048 := by omega
  rw [hcnt]
  apply List.filter_eq_self.2
  intro chunk hc
  rcases List.mem_map.1 hc with ⟨k, hk, rfl⟩
  have hk2 : k < payload.length / 2048 := List.mem_range.1 hk
  have hmul : (k + 1) * 2048 ≤ payload.length :=
    (Nat.le_div_iff_mul_le (by norm_num)).1 (Nat.succ_le_of_lt hk2)
  have hlen : ((payload.drop (k * 2048)).take 2048).length = 2048 := by
    rw [List.length_take, List.length_drop]
    omega
  simp [hlen]

/-- C4: a non-empty binary payload shorter than CHUNK_SIZE is zero-padded
on the right to exactly CHUNK_SIZE and admitted as one frame; a payload
longer than CHUNK_SIZE yields exactly len / CHUNK_SIZE full frames, in
order, each being the k-th CHUNK_SIZE slice (so the tail shorter than
CHUNK_SIZE is dropped, and nothing carries into the next message —
`admittedFrames` is a function of the single payload); and over any
sequence of admitted payloads the assigned frame ids are 0, 1, 2, …
without gaps. -/
theorem C4_frame_normalization (payload : List Byte) (hne : payload.length ≠ 0) :
    (payload.length = AUDIO_CHUNK_SIZE → admittedFrames payload = [payload]) ∧
    (payload.length < AUDIO_CHUNK_SIZE →
      admittedFrames payload
        = [payload ++ List.replicate (AUDIO_CHUNK_SIZE - payload.length) 0] ∧
      (payload ++ List.replicate (AUDIO_CHUNK_SIZE - payload.length) 0).length
        = AUDIO_CHUNK_SIZE) ∧
    (AUDIO_CHUNK_SIZE < payload.length →
      (admittedFrames payload).length = payload.length / AUDIO_CHUNK_SIZE ∧
      ∀ k, ∀ hk : k < (admittedFrames payload).length,
        (admittedFrames payload).get ⟨k, hk⟩
          = (payload.drop (k * AUDIO_CHUNK_SIZE)).take AUDIO_CHUNK_SIZE) ∧
    (∀ (t0 : ℚ) (pls : List (ℚ × List Byte)),
      (ingestManyTrace (AudioBufferManager.new t0) pls).2.map (fun c => c.chunk_id)
        = (List.range (ingestManyTrace (AudioBufferManager.new t0) pls).2.length).map
            (fun n : ℕ => (n : Int))) := by
  refine ⟨?_, ?_, ?_, ?_⟩
  · intro h
    unfold admittedFrames
    rw [if_neg hne, if_pos h]
  · intro h
    constructor
    · unfold admittedFrames
      rw [if_neg hne, if_neg (Nat.ne_of_lt h), if_pos h]
    · simp only [List.length_append, List.length_replicate]
      omega
  · intro h
    refine ⟨?_, ?_⟩
    · rw [admittedFrames_long payload h]
      simp
    · intro k hk
      have hk2 : k < payload.length / AUDIO_CHUNK_SIZE := by
        rw [admittedFrames_long payload h] at hk
        simpa using hk
      simp [admittedFrames_long payload h, List.get_eq_getElem]
  · intro t0 pls
    have h := (ingest_many_ids pls (AudioBufferManager.new t0)).2
    simpa [AudioBufferManager.new] using h

/-- C4 witness: an exact-size payload is admitted as a single frame. -/
theorem C4_frame_normalization_witness :
    (List.replicate 2048 (7 : ℕ)).length ≠ 0 ∧
      ((List.replicate 2048 (7 : ℕ)).length = AUDIO_CHUNK_SIZE →
        admittedFrames (List.replicate 2048 (7 : ℕ)) = [List.replicate 2048 (7 : ℕ)]) :=
  ⟨by simp only [List.length_replicate]; norm_num,
    (C4_frame_normalization (List.replicate 2048 (7 : ℕ))
      (by simp only [List.length_replicate]; norm_num)).1⟩

/-- C7: when the assembled committed PCM of a finalized utterance is
shorter than 2 * CHUNK_SIZE bytes, process_committed_transcription emits
no committed_output, performs no ASR call, and leaves the utterance (in
particular its empty transcript) unchanged. -/
theorem C7_short_utterance_drop (asr : List Byte → ℚ → String) (now : ℚ)
    (seg : SpeechSegment) (m : AudioBufferManager)
    (hshort : (m.get_committed_audio_data seg).length < AUDIO_CHUNK_SIZE * 2) :
    processCommittedAudio asr now seg (m.get_committed_audio_data seg)
      = ⟨seg, [], []⟩ := by
  unfold processCommittedAudio
  rw [if_pos hshort]

/-- C7 witness: the drop evaluated on an empty committed buffer. -/
theorem C7_short_utterance_drop_witness :
    ((AudioBufferManager.new 0).get_committed_audio_data
        (SpeechSegment.new 0 0 0)).length < AUDIO_CHUNK_SIZE * 2 ∧
      processCommittedAudio (fun _ _ => "hello") 5 (SpeechSegment.new 0 0 0)
          ((AudioBufferManager.new 0).get_committed_audio_data (SpeechSegment.new 0 0 0))
        = ⟨SpeechSegment.new 0 0 0, [], []⟩ :=
  ⟨by decide, C7_short_utterance_drop (fun _ _ => "hello") 5 (SpeechSegment.new 0 0 0)
    (AudioBufferManager.new 0) (by decide)⟩

end SonicScribe
